import Mathlib

/-!
Verification of `protorpc/webapp_test_util.py`.

The file embeds, in Lean:

* the message types and the remote methods of `TestService`
  (`optional_message`, `init_parameter`, `nested_message`,
  `raise_application_error`) as pure functions on message values;
* the `ServerThread` class as a small-step transition system on an
  explicit state record.  The Python object holds a condition variable
  (`__condition`), two flags (`__serving`, `__started`) and a permit
  counter (`__requests`); every public method body runs under the
  condition's lock (the `__lock` decorator), so each such body is one
  atomic step.  The `run` method also runs under the lock, but releases
  it inside `condition.wait`, so `run` is split into the atomic blocks
  that the lock delimits: acquiring the lock on entry, marking started,
  the loop-head check, the serve branch, entering the wait (releasing
  the lock), waking from the wait (re-acquiring the lock), and exiting
  the loop (releasing the lock).
* `ServerTransportWrapper` as a record holding the wrapped transport's
  original `send_rpc` together with the server-thread state it notifies.
-/

namespace WebappTestUtil

/-- Modelled from the spec: `protorpc.test_util.OptionalMessage` is not under
`src/`; per the spec it is a message with an optional field `string_value`.
An optional string field is unset (`none`) or holds a string. -/
structure OptionalMessage where
  string_value : Option String
deriving DecidableEq

/-- Modelled from the spec: `protorpc.test_util.NestedMessage` is not under
`src/`; the only field the code under `src/` reads or writes on it is
`string_value`. -/
structure NestedMessage where
  string_value : Option String
deriving DecidableEq

/-- Python truthiness of an optional string field: `None` and the empty
string are falsy, every other string is truthy. -/
def truthyStr : Option String → Bool
  | none => false
  | some s => s ≠ ""

/-- `TestService.__init__` stores `message` in `self.__message`
(`webapp_test_util.py:307-308`); the default argument is
`'uninitialized'`. -/
structure TestService where
  message : String
deriving DecidableEq

/-- The default value of the `message` constructor argument of
`TestService`. -/
def default_message : String := "uninitialized"

/-- `TestService(...)` with an explicit constructor argument, as produced by
`TestService.new_factory(msg)`: the factory captures the constructor
argument and builds the instance per request. -/
def new_factory (message : String) : Unit → TestService :=
  fun _ => ⟨message⟩

/-- `TestService()` with the default constructor argument, as used for the
bare class in a service mapping. -/
def default_factory : Unit → TestService :=
  fun _ => ⟨default_message⟩

/-- The `DEFAULT_MAPPING` of `EndToEndTestBase`
(`webapp_test_util.py:402-405`): `TestService` at `/my/service` and
`TestService.new_factory('initialized')` at `/my/other_service`. -/
def DEFAULT_MAPPING : List (String × (Unit → TestService)) :=
  [("/my/service", default_factory),
   ("/my/other_service", new_factory "initialized")]

/-- `TestService.optional_message` (`webapp_test_util.py:311-314`):
if `request.string_value` is truthy, set it to `'+%s' % request.string_value`
and return the request, else return the request unchanged. -/
def optional_message (request : OptionalMessage) : OptionalMessage :=
  match request.string_value with
  | some s => if s ≠ "" then { request with string_value := some ("+" ++ s) } else request
  | none => request

/-- `TestService.init_parameter` (`webapp_test_util.py:317-318`): returns
`OptionalMessage(string_value=self.__message)`. -/
def init_parameter (self : TestService) (_request : Unit) : OptionalMessage :=
  ⟨some self.message⟩

/-- Outcome of invoking a remote method body: a normal return, an
intentional `remote.ApplicationError` (message and error name), or an
unclassified Python exception identified by its class name. -/
inductive MethodOutcome (α : Type) where
  | ok (response : α)
  | applicationError (message : String) (error_name : String)
  | pyError (exc_class : String)
deriving DecidableEq

/-- The names that a Python name lookup in the body of
`TestService.nested_message` can resolve: the function's local bindings
(`self`, `request`) followed by the names bound at module level in
`webapp_test_util.py` (imports, module attributes and classes). -/
def nested_message_scope : List String :=
  ["self", "request",
   "cStringIO", "threading", "unittest", "urllib2", "simple_server",
   "validate", "protojson", "remote", "test_util", "transport",
   "service_handlers", "webapp", "testbed",
   "TestService", "GetDefaultEnvironment", "RequestHandlerTestBase",
   "ServerThread", "ServerTransportWrapper", "AlternateService",
   "WebServerTestBase", "EndToEndTestBase"]

/-- `TestService.nested_message` (`webapp_test_util.py:321-323`): the body is
`request.string_value = '+%s' % requset.string_value; return request`.
The right-hand side reads the name `requset`; if that name resolves in
scope the assignment and return happen, otherwise Python raises
`NameError` before anything else. -/
def nested_message (_self : TestService) (request : NestedMessage) :
    MethodOutcome NestedMessage :=
  if "requset" ∈ nested_message_scope then
    MethodOutcome.ok
      { request with
        string_value := some ("+" ++ (request.string_value.getD "")) }
  else
    MethodOutcome.pyError "NameError"

/-- `TestService.raise_application_error` (`webapp_test_util.py:326-327`):
always raises `remote.ApplicationError('This is an application error',
'ERROR_NAME')`. -/
def raise_application_error (_self : TestService) (_request : Unit) :
    MethodOutcome Unit :=
  MethodOutcome.applicationError "This is an application error" "ERROR_NAME"

/-- What the stub caller observes for one invocation: a decoded response, a
re-raised `ApplicationError`, or a generic unexpected-error. -/
inductive ClientOutcome (α : Type) where
  | response (r : α)
  | applicationError (message : String) (error_name : String)
  | unexpectedError
deriving DecidableEq

/-- Modelled from the spec: the dispatcher and stub pipeline
(`protorpc.remote`, the service handlers and the stub generator) is not
under `src/`.  Per the spec, an `ApplicationError` raised by a handler is
carried to the client preserving its message and symbolic name end-to-end,
any other exception raised by a handler is converted to a generic opaque
unexpected-error, and a returned response is delivered as the response. -/
def clientOutcome {α : Type} : MethodOutcome α → ClientOutcome α
  | MethodOutcome.ok r => ClientOutcome.response r
  | MethodOutcome.applicationError m n => ClientOutcome.applicationError m n
  | MethodOutcome.pyError _ => ClientOutcome.unexpectedError

/-! ## The `ServerThread` transition system -/

/-- Program counter of the server thread inside `ServerThread.run`
(`webapp_test_util.py:263-275`), at the granularity of the atomic blocks
delimited by the condition's lock. -/
inductive SPc where
  /-- `run` has not begun: the lock was never acquired by the thread. -/
  | notStarted
  /-- The lock was acquired on entry to `run`; the next action is
  `self.__started = True; self.__condition.notifyAll()`. -/
  | markStarted
  /-- At the `while self.__serving` check, lock held. -/
  | loopHead
  /-- Blocked in `self.__condition.wait()`; the lock is released. -/
  | waiting
  /-- In the `else` branch, about to call `self.server.handle_request()`
  and decrement `self.__requests`, lock held. -/
  | serveCall
  /-- The loop exited and `run` returned, releasing the lock. -/
  | exited
deriving DecidableEq

/-- The shared state of one `ServerThread` (`webapp_test_util.py:190-275`):
the `__serving` and `__started` flags, the `__requests` permit counter
(a Python int, so an unbounded integer), the server thread's program
counter, whether the server thread holds the condition's lock, and
whether a pending `notify` will wake the server thread's `wait`.  The
ghost counters `served` (completed `server.handle_request()` calls) and
`waits` (times the loop entered `condition.wait`) record history. -/
structure TState where
  serving : Bool
  started : Bool
  requests : Int
  served : Nat
  waits : Nat
  spc : SPc
  lockHeld : Bool
  snotified : Bool
deriving DecidableEq

/-- The state set up by `ServerThread.__init__` (`webapp_test_util.py:227-231`):
`__serving = True`, `__started = False`, `__requests = 0`, thread not yet
running, lock free. -/
def initState : TState :=
  { serving := true, started := false, requests := 0, served := 0,
    waits := 0, spc := SPc.notStarted, lockHeld := false, snotified := false }

/-- `ServerThread.handle_request` (`webapp_test_util.py:242-249`), the body of
the critical section: `self.__requests += request_count;
self.__condition.notify()`.  A `notify` wakes the server thread only when
it is blocked in `condition.wait`; a notify with no thread waiting is
lost. -/
def handle_request (s : TState) (request_count : Int) : TState :=
  { s with requests := s.requests + request_count,
           snotified := if s.spc = SPc.waiting then true else s.snotified }

/-- `ServerThread.shutdown` (`webapp_test_util.py:236-239`), the body of the
critical section: `self.__serving = False; self.__condition.notify()`. -/
def shutdown (s : TState) : TState :=
  { s with serving := false,
           snotified := if s.spc = SPc.waiting then true else s.snotified }

/-- The atomic events of the system: the externally called methods
(`handle_request`, `shutdown`, and the lock acquisition inside
`wait_until_running` once `__started` is set), and the lock-delimited
blocks of `run`. -/
inductive Ev where
  /-- An external caller runs `handle_request(request_count)`. -/
  | extHandle (request_count : Int)
  /-- An external caller runs `shutdown()`. -/
  | extShutdown
  /-- An external caller inside `wait_until_running` acquires the lock,
  sees `__started` true, and returns (`webapp_test_util.py:252-261`). -/
  | extCheckRunning
  /-- The server thread begins `run`, acquiring the lock. -/
  | runEnter
  /-- `self.__started = True; self.__condition.notifyAll()`. -/
  | runMarkStarted
  /-- The loop check with `__serving` true and `__requests != 0`:
  take the serve branch. -/
  | runCheckServe
  /-- `self.server.handle_request()` returns and `self.__requests -= 1`. -/
  | runServeDone
  /-- The loop check with `__serving` true and `__requests == 0`:
  enter `condition.wait`, releasing the lock. -/
  | runCheckWait
  /-- A notified `condition.wait` returns, re-acquiring the lock. -/
  | runWake
  /-- The loop check with `__serving` false: leave the loop,
  `run` returns and the lock is released. -/
  | runCheckExit
deriving DecidableEq

/-- One atomic step of the system.  External events require the lock to be
free (their whole critical section is one step); the `run` events follow
the program counter.  `none` means the event is not enabled. -/
def stepEv (s : TState) : Ev → Option TState
  | Ev.extHandle n =>
      if s.lockHeld then none else some (handle_request s n)
  | Ev.extShutdown =>
      if s.lockHeld then none else some (shutdown s)
  | Ev.extCheckRunning =>
      if s.lockHeld = false ∧ s.started = true then some s else none
  | Ev.runEnter =>
      if s.spc = SPc.notStarted ∧ s.lockHeld = false then
        some { s with spc := SPc.markStarted, lockHeld := true }
      else none
  | Ev.runMarkStarted =>
      if s.spc = SPc.markStarted then
        some { s with started := true, spc := SPc.loopHead }
      else none
  | Ev.runCheckServe =>
      if s.spc = SPc.loopHead ∧ s.serving = true ∧ s.requests ≠ 0 then
        some { s with spc := SPc.serveCall }
      else none
  | Ev.runServeDone =>
      if s.spc = SPc.serveCall then
        some { s with requests := s.requests - 1, served := s.served + 1,
                      spc := SPc.loopHead }
      else none
  | Ev.runCheckWait =>
      if s.spc = SPc.loopHead ∧ s.serving = true ∧ s.requests = 0 then
        some { s with spc := SPc.waiting, lockHeld := false,
                      snotified := false, waits := s.waits + 1 }
      else none
  | Ev.runWake =>
      if s.spc = SPc.waiting ∧ s.snotified = true then
        some { s with spc := SPc.loopHead, lockHeld := true,
                      snotified := false }
      else none
  | Ev.runCheckExit =>
      if s.spc = SPc.loopHead ∧ s.serving = false then
        some { s with spc := SPc.exited, lockHeld := false }
      else none

/-- Run a sequence of events from a state; `none` if any event in the
sequence is not enabled when its turn comes. -/
def runTrace (s : TState) : List Ev → Option TState
  | [] => some s
  | e :: evs =>
      match stepEv s e with
      | some t => runTrace t evs
      | none => none

/-- The permit-counter invariant of `ServerThread`: `__requests` is
non-negative, and whenever the thread stands at the
`server.handle_request()` call (the only place the counter is
decremented), the counter is strictly positive. -/
def C1Inv (s : TState) : Prop :=
  0 ≤ s.requests ∧ (s.spc = SPc.serveCall → 0 < s.requests)

/-- The lock invariant of `ServerThread`: the server thread holds the
condition's lock exactly when its program counter is inside one of the
lock-holding blocks of `run` (`markStarted`, `loopHead`, `serveCall`). -/
def LockInv (s : TState) : Prop :=
  s.lockHeld = true ↔
    (s.spc = SPc.markStarted ∨ s.spc = SPc.loopHead ∨ s.spc = SPc.serveCall)

/-- The post-shutdown invariant of `ServerThread`: once `__serving` is
false and the thread is not inside the `server.handle_request()` call,
every later state still has `__serving` false, never stands at the
`server.handle_request()` call, and completes no further request and
enters no further `condition.wait` (the ghost counters `served` and
`waits` stay at `k` and `m`). -/
def C2Inv (k m : Nat) (s : TState) : Prop :=
  s.serving = false ∧ s.spc ≠ SPc.serveCall ∧ s.served = k ∧ s.waits = m

/-- The externally callable operations of `ServerThread`:
`handle_request`, `shutdown`, and the lock acquisition inside
`wait_until_running`. -/
def Ev.isExternal : Ev → Bool
  | Ev.extHandle _ => true
  | Ev.extShutdown => true
  | Ev.extCheckRunning => true
  | _ => false

/-- A transport as `ServerTransportWrapper` sees it: its `send_rpc` method,
a function from the call's arguments to the value it returns or the
exception it raises (`Except.error`). -/
structure Transport (α ε β : Type) where
  send_rpc : α → Except ε β

/-- A constructed `ServerTransportWrapper` (`webapp_test_util.py:286-297`):
it keeps the server thread to notify and a reference to the wrapped
transport's original `send_rpc` (saved before the wrapper's own
`send_rpc` is patched over it). -/
structure ServerTransportWrapper (α ε β : Type) where
  server_thread : TState
  original_send_rpc : α → Except ε β

/-- `ServerTransportWrapper.__init__` (`webapp_test_util.py:286-297`):
store the server thread and capture `transport.send_rpc` as
`original_send_rpc`. -/
def wrapTransport {α ε β : Type} (server_thread : TState)
    (t : Transport α ε β) : ServerTransportWrapper α ε β :=
  { server_thread := server_thread, original_send_rpc := t.send_rpc }

/-- `ServerTransportWrapper.send_rpc` (`webapp_test_util.py:299-301`):
`self.server_thread.handle_request(); return self.original_send_rpc(*args,
**kwargs)`.  The result pairs the server-thread state after the
notification with the original call's value or exception. -/
def ServerTransportWrapper.send_rpc {α ε β : Type}
    (w : ServerTransportWrapper α ε β) (args : α) :
    ServerTransportWrapper α ε β × Except ε β :=
  ({ w with server_thread := handle_request w.server_thread 1 },
   w.original_send_rpc args)

/-! ## The permit-before-start scenario (two threads)

The scenario of C3: the test driver calls `handle_request(1)`, then
`start()`, then `wait_until_running()`, while the server thread runs
`run`.  Both threads share the one condition variable, so the model
tracks the driver's program counter and lock/notification state next to
the server's.  The state space of this closed scenario is finite, so the
claims about it are settled by exhaustive enumeration. -/

/-- Program counter of the test driver in the C3 scenario. -/
inductive DPc where
  /-- About to call `handle_request(1)`. -/
  | dGrant
  /-- About to call `start()`. -/
  | dStart
  /-- Inside `wait_until_running`, about to acquire the lock. -/
  | dAcquire
  /-- Holding the lock, about to test `self.__started`. -/
  | dCheck
  /-- Blocked in `condition.wait` inside `wait_until_running`. -/
  | dWait
  /-- `wait_until_running` returned. -/
  | dDone
deriving DecidableEq

/-- Joint state of the server thread and the test driver in the C3
scenario: the `ServerThread` fields, which thread (if any) holds the
condition's lock (`slock` for the server, `dlock` for the driver),
whether `start()` has been called (`threadStarted`), and the pending
notifications of each thread's `condition.wait`. -/
structure CState where
  serving : Bool
  started : Bool
  requests : Int
  served : Nat
  spc : SPc
  slock : Bool
  snot : Bool
  threadStarted : Bool
  dpc : DPc
  dlock : Bool
  dnot : Bool
deriving DecidableEq

/-- Neither thread holds the condition's lock. -/
def lockFree (s : CState) : Bool := !s.slock && !s.dlock

/-- All states one atomic step away.  Driver steps: `handle_request(1)`
(increment the counter, `notify` — waking the server only if it is
waiting), `start()`, and the lock-acquire / check-started / wait / wake
steps of `wait_until_running`.  Server steps: the lock-delimited blocks
of `run` as in `stepEv`; `notifyAll` in `run` wakes the driver if it is
waiting.  A step requiring the lock is enabled only when the lock is
free. -/
def nextStates (s : CState) : List CState :=
  (if s.dpc = DPc.dGrant ∧ lockFree s = true then
      [{ s with requests := s.requests + 1,
                snot := if s.spc = SPc.waiting then true else s.snot,
                dpc := DPc.dStart }]
   else []) ++
  (if s.dpc = DPc.dStart then
      [{ s with threadStarted := true, dpc := DPc.dAcquire }]
   else []) ++
  (if s.dpc = DPc.dAcquire ∧ lockFree s = true then
      [{ s with dlock := true, dpc := DPc.dCheck }]
   else []) ++
  (if s.dpc = DPc.dCheck ∧ s.started = true then
      [{ s with dlock := false, dpc := DPc.dDone }]
   else []) ++
  (if s.dpc = DPc.dCheck ∧ s.started = false then
      [{ s with dlock := false, dnot := false, dpc := DPc.dWait }]
   else []) ++
  (if s.dpc = DPc.dWait ∧ s.dnot = true ∧ lockFree s = true then
      [{ s with dlock := true, dnot := false, dpc := DPc.dCheck }]
   else []) ++
  (if s.spc = SPc.notStarted ∧ s.threadStarted = true ∧ lockFree s = true then
      [{ s with slock := true, spc := SPc.markStarted }]
   else []) ++
  (if s.spc = SPc.markStarted then
      [{ s with started := true,
                dnot := if s.dpc = DPc.dWait then true else s.dnot,
                spc := SPc.loopHead }]
   else []) ++
  (if s.spc = SPc.loopHead ∧ s.serving = true ∧ s.requests ≠ 0 then
      [{ s with spc := SPc.serveCall }]
   else []) ++
  (if s.spc = SPc.serveCall then
      [{ s with requests := s.requests - 1, served := s.served + 1,
                spc := SPc.loopHead }]
   else []) ++
  (if s.spc = SPc.loopHead ∧ s.serving = true ∧ s.requests = 0 then
      [{ s with spc := SPc.waiting, slock := false, snot := false }]
   else []) ++
  (if s.spc = SPc.waiting ∧ s.snot = true ∧ lockFree s = true then
      [{ s with spc := SPc.loopHead, slock := true, snot := false }]
   else []) ++
  (if s.spc = SPc.loopHead ∧ s.serving = false then
      [{ s with spc := SPc.exited, slock := false }]
   else [])

/-- The C3 scenario's initial state: a fresh `ServerThread` before
`start()`, the driver about to call `handle_request(1)`. -/
def initC : CState :=
  { serving := true, started := false, requests := 0, served := 0,
    spc := SPc.notStarted, slock := false, snot := false,
    threadStarted := false, dpc := DPc.dGrant, dlock := false, dnot := false }

/-- One breadth-first expansion of a state set. -/
def growC (R : List CState) : List CState :=
  (R ++ R.flatMap nextStates).dedup

/-- The reachable states of the C3 scenario, computed by iterating the
expansion until it is closed (closure is proved below). -/
def reachC : List CState := growC^[12] [initC]

/-- Rank of the driver's program counter, for the termination measure. -/
def dRank : DPc → Nat
  | DPc.dGrant => 20
  | DPc.dStart => 7
  | DPc.dAcquire => 6
  | DPc.dCheck => 4
  | DPc.dWait => 3
  | DPc.dDone => 0

/-- Rank of the server's program counter, for the termination measure. -/
def sRank : SPc → Nat
  | SPc.notStarted => 10
  | SPc.markStarted => 9
  | SPc.loopHead => 2
  | SPc.serveCall => 1
  | SPc.waiting => 1
  | SPc.exited => 0

/-- Termination measure of the C3 scenario: it strictly decreases along
every step (proved below), so every execution is finite. -/
def rankC (s : CState) : Nat :=
  dRank s.dpc + sRank s.spc + (if s.snot then 2 else 0)
    + (if s.dnot then 2 else 0) + 3 * s.requests.toNat

/-- Every step enabled at `s` strictly decreases the termination
measure. -/
def rankDecreasesAt (s : CState) : Bool :=
  (nextStates s).all (fun t => decide (rankC t < rankC s))

/-- Reachability in the C3 scenario. -/
inductive ReachC : CState → Prop where
  | refl : ReachC initC
  | step {s t : CState} : ReachC s → t ∈ nextStates s → ReachC t

/-- A property of states preserved by every enabled step whose event
satisfies `Q` is preserved along every trace whose events all satisfy
`Q`. -/
theorem runTrace_preserve (P : TState → Prop) (Q : Ev → Prop)
    (hstep : ∀ s t e, Q e → P s → stepEv s e = some t → P t) :
    ∀ evs (s t : TState), (∀ e ∈ evs, Q e) → P s →
      runTrace s evs = some t → P t := by
  intro evs
  induction evs with
  | nil =>
      intro s t _ hs h
      simp only [runTrace, Option.some.injEq] at h
      exact h ▸ hs
  | cons e evs ih =>
      intro s t hq hs h
      simp only [runTrace] at h
      cases hst : stepEv s e with
      | none => rw [hst] at h; cases h
      | some u =>
          rw [hst] at h
          exact ih u t (fun x hx => hq x (List.mem_cons_of_mem _ hx))
            (hstep s u e (hq e (List.mem_cons_self _ _)) hs hst) h

/-- Every enabled step with a non-negative `handle_request` argument
preserves `C1Inv`. -/
theorem stepEv_C1Inv (s t : TState) (e : Ev)
    (hq : ∀ n, e = Ev.extHandle n → 0 ≤ n)
    (hs : C1Inv s) (h : stepEv s e = some t) : C1Inv t := by
  obtain ⟨h1, h2⟩ := hs
  cases e <;> simp only [stepEv] at h
  case extHandle n =>
    split at h
    · cases h
    · simp only [Option.some.injEq] at h
      subst h
      have hn : 0 ≤ n := hq n rfl
      constructor
      · simp only [handle_request]; omega
      · intro hpc
        simp only [handle_request] at hpc ⊢
        have := h2 hpc
        omega
  case extShutdown =>
    split at h
    · cases h
    · simp only [Option.some.injEq] at h
      subst h
      exact ⟨h1, fun hpc => h2 hpc⟩
  case extCheckRunning =>
    split at h
    · simp only [Option.some.injEq] at h
      exact h ▸ ⟨h1, h2⟩
    · cases h
  case runEnter =>
    split at h
    · simp only [Option.some.injEq] at h
      subst h
      exact ⟨h1, by intro hpc; cases hpc⟩
    · cases h
  case runMarkStarted =>
    split at h
    · simp only [Option.some.injEq] at h
      subst h
      exact ⟨h1, by intro hpc; cases hpc⟩
    · cases h
  case runCheckServe =>
    split at h
    · simp only [Option.some.injEq] at h
      subst h
      rename_i hcond
      obtain ⟨-, -, hr⟩ := hcond
      refine ⟨h1, fun _ => ?_⟩
      show 0 < s.requests
      omega
    · cases h
  case runServeDone =>
    split at h
    · simp only [Option.some.injEq] at h
      subst h
      rename_i hcond
      have := h2 hcond
      refine ⟨?_, by intro hpc; cases hpc⟩
      show 0 ≤ s.requests - 1
      omega
    · cases h
  case runCheckWait =>
    split at h
    · simp only [Option.some.injEq] at h
      subst h
      exact ⟨h1, by intro hpc; cases hpc⟩
    · cases h
  case runWake =>
    split at h
    · simp only [Option.some.injEq] at h
      subst h
      exact ⟨h1, by intro hpc; cases hpc⟩
    · cases h
  case runCheckExit =>
    split at h
    · simp only [Option.some.injEq] at h
      subst h
      exact ⟨h1, by intro hpc; cases hpc⟩
    · cases h

/-- Every enabled step preserves `LockInv`. -/
theorem stepEv_LockInv (s t : TState) (e : Ev)
    (hs : LockInv s) (h : stepEv s e = some t) : LockInv t := by
  cases e <;> simp only [stepEv] at h
  case extHandle n =>
    split at h
    · cases h
    · simp only [Option.some.injEq] at h
      subst h
      simpa only [LockInv, handle_request] using hs
  case extShutdown =>
    split at h
    · cases h
    · simp only [Option.some.injEq] at h
      subst h
      simpa only [LockInv, shutdown] using hs
  case extCheckRunning =>
    split at h
    · simp only [Option.some.injEq] at h
      exact h ▸ hs
    · cases h
  case runEnter =>
    split at h
    · simp only [Option.some.injEq] at h
      subst h
      simp [LockInv]
    · cases h
  case runMarkStarted =>
    split at h
    · simp only [Option.some.injEq] at h
      subst h
      rename_i hcond
      simp only [LockInv] at hs ⊢
      constructor
      · intro _; simp
      · intro _; exact hs.mpr (Or.inl hcond)
    · cases h
  case runCheckServe =>
    split at h
    · simp only [Option.some.injEq] at h
      subst h
      rename_i hcond
      simp only [LockInv] at hs ⊢
      constructor
      · intro _; simp
      · intro _; exact hs.mpr (Or.inr (Or.inl hcond.1))
    · cases h
  case runServeDone =>
    split at h
    · simp only [Option.some.injEq] at h
      subst h
      rename_i hcond
      simp only [LockInv] at hs ⊢
      constructor
      · intro _; simp
      · intro _; exact hs.mpr (Or.inr (Or.inr hcond))
    · cases h
  case runCheckWait =>
    split at h
    · simp only [Option.some.injEq] at h
      subst h
      simp [LockInv]
    · cases h
  case runWake =>
    split at h
    · simp only [Option.some.injEq] at h
      subst h
      simp [LockInv]
    · cases h
  case runCheckExit =>
    split at h
    · simp only [Option.some.injEq] at h
      subst h
      simp [LockInv]
    · cases h

/-- `LockInv` holds in every state reachable from `initState`. -/
theorem reachable_LockInv (evs : List Ev) (s : TState)
    (h : runTrace initState evs = some s) : LockInv s :=
  runTrace_preserve LockInv (fun _ => True)
    (fun s t e _ => stepEv_LockInv s t e)
    evs initState s (fun _ _ => trivial) (by simp [LockInv, initState]) h

/-! ## The `ServerThread` claims -/

/-- **C1.** Starting from `__requests = 0`, under the precondition that
every `handle_request` call passes a non-negative `request_count`, the
counter is never negative in any reachable state, and the decrement in
the serving loop (`runServeDone`) is only ever enabled when the counter
is strictly positive. -/
theorem requests_never_negative (evs : List Ev) (s : TState)
    (hnn : ∀ n, Ev.extHandle n ∈ evs → 0 ≤ n)
    (hrun : runTrace initState evs = some s) :
    0 ≤ s.requests
    ∧ ((stepEv s Ev.runServeDone).isSome = true → 0 < s.requests) := by
  have hinv : C1Inv s := by
    refine runTrace_preserve C1Inv (fun e => ∀ n, e = Ev.extHandle n → 0 ≤ n)
      stepEv_C1Inv evs initState s ?_ ?_ hrun
    · intro e he n hen
      exact hnn n (hen ▸ he)
    · exact ⟨le_refl 0, by intro hpc; cases hpc⟩
  refine ⟨hinv.1, ?_⟩
  intro hen
  simp only [stepEv] at hen
  split at hen
  · rename_i hcond
    exact hinv.2 hcond
  · cases hen

/-- Witness for C1: grant two permits, start the thread, reach the
`server.handle_request()` call; the counter is non-negative and the
decrement is enabled only with a positive counter. -/
theorem requests_never_negative_witness :
    0 ≤ (⟨true, true, 2, 0, 0, SPc.serveCall, true, false⟩ : TState).requests
    ∧ ((stepEv ⟨true, true, 2, 0, 0, SPc.serveCall, true, false⟩
          Ev.runServeDone).isSome = true →
        0 < (⟨true, true, 2, 0, 0, SPc.serveCall, true, false⟩ : TState).requests) :=
  requests_never_negative
    [Ev.extHandle 2, Ev.runEnter, Ev.runMarkStarted, Ev.runCheckServe]
    ⟨true, true, 2, 0, 0, SPc.serveCall, true, false⟩
    (by intro n hn; simp at hn; omega)
    (by decide)

/-- Every enabled step preserves the post-shutdown invariant. -/
theorem stepEv_C2Inv (k m : Nat) (s t : TState) (e : Ev)
    (hs : C2Inv k m s) (h : stepEv s e = some t) : C2Inv k m t := by
  obtain ⟨h1, h2, h3, h4⟩ := hs
  cases e <;> simp only [stepEv] at h
  case extHandle n =>
    split at h
    · cases h
    · simp only [Option.some.injEq] at h
      subst h
      exact ⟨h1, h2, h3, h4⟩
  case extShutdown =>
    split at h
    · cases h
    · simp only [Option.some.injEq] at h
      subst h
      exact ⟨rfl, h2, h3, h4⟩
  case extCheckRunning =>
    split at h
    · simp only [Option.some.injEq] at h
      exact h ▸ ⟨h1, h2, h3, h4⟩
    · cases h
  case runEnter =>
    split at h
    · simp only [Option.some.injEq] at h
      subst h
      exact ⟨h1, (by intro hc; cases hc), h3, h4⟩
    · cases h
  case runMarkStarted =>
    split at h
    · simp only [Option.some.injEq] at h
      subst h
      exact ⟨h1, (by intro hc; cases hc), h3, h4⟩
    · cases h
  case runCheckServe =>
    split at h
    · rename_i hcond
      simp [h1] at hcond
    · cases h
  case runServeDone =>
    split at h
    · rename_i hcond
      exact absurd hcond h2
    · cases h
  case runCheckWait =>
    split at h
    · rename_i hcond
      simp [h1] at hcond
    · cases h
  case runWake =>
    split at h
    · simp only [Option.some.injEq] at h
      subst h
      exact ⟨h1, (by intro hc; cases hc), h3, h4⟩
    · cases h
  case runCheckExit =>
    split at h
    · simp only [Option.some.injEq] at h
      subst h
      exact ⟨h1, (by intro hc; cases hc), h3, h4⟩
    · cases h

/-- **C2.** Shutdown is terminal: once `shutdown()` has completed (the
`extShutdown` step fires from a reachable state `s1`, yielding `s2`),
every continuation leaves `__serving` false, never reaches the
`server.handle_request()` call, completes no further request
(`served` stays fixed) even if the permit counter is still positive, and
enters no further `condition.wait` cycle (`waits` stays fixed: the loop
exits within the wake cycle it is in). -/
theorem shutdown_terminal (evs1 evs2 : List Ev) (s1 s2 s3 : TState)
    (h1 : runTrace initState evs1 = some s1)
    (h2 : stepEv s1 Ev.extShutdown = some s2)
    (h3 : runTrace s2 evs2 = some s3) :
    s3.served = s2.served ∧ s3.waits = s2.waits ∧ s3.serving = false
    ∧ s3.spc ≠ SPc.serveCall := by
  have hlock : LockInv s1 := reachable_LockInv evs1 s1 h1
  simp only [stepEv] at h2
  split at h2
  · cases h2
  · rename_i hnl
    simp only [Option.some.injEq] at h2
    have hfree : s1.lockHeld = false := by
      cases hv : s1.lockHeld
      · rfl
      · exact absurd hv hnl
    have hnpc : s1.spc ≠ SPc.serveCall := by
      intro hc
      have hheld : s1.lockHeld = true := hlock.mpr (Or.inr (Or.inr hc))
      rw [hfree] at hheld
      cases hheld
    have hs2 : C2Inv s2.served s2.waits s2 := by
      subst h2
      exact ⟨rfl, hnpc, rfl, rfl⟩
    have hres := runTrace_preserve (C2Inv s2.served s2.waits) (fun _ => True)
      (fun s t e _ => stepEv_C2Inv s2.served s2.waits s t e)
      evs2 s2 s3 (fun _ _ => trivial) hs2 h3
    exact ⟨hres.2.2.1, hres.2.2.2, hres.1, hres.2.1⟩

/-- Witness for C2: start the thread, let the loop enter its wait, call
`shutdown()`, then let the loop wake once and exit; the ghost counters do
not move after the shutdown. -/
theorem shutdown_terminal_witness :
    (⟨false, true, 0, 0, 1, SPc.exited, false, false⟩ : TState).served
        = (⟨false, true, 0, 0, 1, SPc.waiting, false, true⟩ : TState).served
    ∧ (⟨false, true, 0, 0, 1, SPc.exited, false, false⟩ : TState).waits
        = (⟨false, true, 0, 0, 1, SPc.waiting, false, true⟩ : TState).waits
    ∧ (⟨false, true, 0, 0, 1, SPc.exited, false, false⟩ : TState).serving = false
    ∧ (⟨false, true, 0, 0, 1, SPc.exited, false, false⟩ : TState).spc
        ≠ SPc.serveCall :=
  shutdown_terminal
    [Ev.runEnter, Ev.runMarkStarted, Ev.runCheckWait]
    [Ev.runWake, Ev.runCheckExit]
    ⟨true, true, 0, 0, 1, SPc.waiting, false, false⟩
    ⟨false, true, 0, 0, 1, SPc.waiting, false, true⟩
    ⟨false, true, 0, 0, 1, SPc.exited, false, false⟩
    (by decide) (by decide) (by decide)

/-- **C10.** `run` holds the condition's lock from loop entry to loop exit
except while blocked in `condition.wait`: in every reachable state the
lock invariant holds, and whenever an external operation
(`handle_request`, `shutdown`, or `wait_until_running`'s check) is
enabled — i.e. can acquire the lock and complete — the server thread is
before `run`, blocked in `condition.wait`, or past the loop, and in
particular never inside the `server.handle_request()` call; moreover the
loop only ever enters `condition.wait` with a zero permit count. -/
theorem run_holds_lock (evs : List Ev) (s : TState) (e : Ev)
    (hrun : runTrace initState evs = some s)
    (hext : e.isExternal = true)
    (hen : (stepEv s e).isSome = true) :
    (s.lockHeld = true ↔
      (s.spc = SPc.markStarted ∨ s.spc = SPc.loopHead ∨ s.spc = SPc.serveCall))
    ∧ (s.spc = SPc.notStarted ∨ s.spc = SPc.waiting ∨ s.spc = SPc.exited)
    ∧ s.spc ≠ SPc.serveCall
    ∧ ((stepEv s Ev.runCheckWait).isSome = true → s.requests = 0) := by
  have hlock : LockInv s := reachable_LockInv evs s hrun
  have hfree : s.lockHeld = false := by
    cases e with
    | extHandle n =>
        simp only [stepEv] at hen
        split at hen
        · cases hen
        · rename_i hnl
          cases hv : s.lockHeld
          · rfl
          · exact absurd hv hnl
    | extShutdown =>
        simp only [stepEv] at hen
        split at hen
        · cases hen
        · rename_i hnl
          cases hv : s.lockHeld
          · rfl
          · exact absurd hv hnl
    | extCheckRunning =>
        simp only [stepEv] at hen
        split at hen
        · rename_i hcond
          exact hcond.1
        · cases hen
    | runEnter => simp [Ev.isExternal] at hext
    | runMarkStarted => simp [Ev.isExternal] at hext
    | runCheckServe => simp [Ev.isExternal] at hext
    | runServeDone => simp [Ev.isExternal] at hext
    | runCheckWait => simp [Ev.isExternal] at hext
    | runWake => simp [Ev.isExternal] at hext
    | runCheckExit => simp [Ev.isExternal] at hext
  have hnin : ¬(s.spc = SPc.markStarted ∨ s.spc = SPc.loopHead
      ∨ s.spc = SPc.serveCall) := by
    intro hc
    have hheld := hlock.mpr hc
    rw [hfree] at hheld
    cases hheld
  refine ⟨hlock, ?_, ?_, ?_⟩
  · cases hpc : s.spc <;> simp_all
  · intro hc
    exact hnin (Or.inr (Or.inr hc))
  · intro hw
    simp only [stepEv] at hw
    split at hw
    · rename_i hcond
      exact hcond.2.2
    · cases hw

/-- Witness for C10: with the loop blocked in its wait, `handle_request`
is enabled, and the lock invariant and wait-entry condition hold. -/
theorem run_holds_lock_witness :
    ((⟨true, true, 0, 0, 1, SPc.waiting, false, false⟩ : TState).lockHeld = true ↔
      ((⟨true, true, 0, 0, 1, SPc.waiting, false, false⟩ : TState).spc = SPc.markStarted
        ∨ (⟨true, true, 0, 0, 1, SPc.waiting, false, false⟩ : TState).spc = SPc.loopHead
        ∨ (⟨true, true, 0, 0, 1, SPc.waiting, false, false⟩ : TState).spc = SPc.serveCall))
    ∧ ((⟨true, true, 0, 0, 1, SPc.waiting, false, false⟩ : TState).spc = SPc.notStarted
        ∨ (⟨true, true, 0, 0, 1, SPc.waiting, false, false⟩ : TState).spc = SPc.waiting
        ∨ (⟨true, true, 0, 0, 1, SPc.waiting, false, false⟩ : TState).spc = SPc.exited)
    ∧ (⟨true, true, 0, 0, 1, SPc.waiting, false, false⟩ : TState).spc ≠ SPc.serveCall
    ∧ ((stepEv ⟨true, true, 0, 0, 1, SPc.waiting, false, false⟩ Ev.runCheckWait).isSome = true →
        (⟨true, true, 0, 0, 1, SPc.waiting, false, false⟩ : TState).requests = 0) :=
  run_holds_lock
    [Ev.runEnter, Ev.runMarkStarted, Ev.runCheckWait]
    ⟨true, true, 0, 0, 1, SPc.waiting, false, false⟩
    (Ev.extHandle 1)
    (by decide) (by decide) (by decide)

/-- The computed list `reachC` is closed under `nextStates`. -/
theorem reachC_closed : ∀ s ∈ reachC, ∀ t ∈ nextStates s, t ∈ reachC := by
  decide

/-- The scenario's initial state is in the computed list. -/
theorem initC_mem_reachC : initC ∈ reachC := by decide

/-- Every reachable state of the C3 scenario is in the computed list. -/
theorem reachC_complete (s : CState) (h : ReachC s) : s ∈ reachC := by
  induction h with
  | refl => exact initC_mem_reachC
  | step hr hm ih => exact reachC_closed _ ih _ hm

/-- **C3.** A permit granted before the server thread starts is not lost.
In the scenario `handle_request(1)`; `start()`; `wait_until_running()`:
in every reachable state at most one request has been served; the only
state with no enabled step is the good quiescent one, in which
`wait_until_running` has returned, exactly one request has been served
and the loop is parked in its wait with a zero counter; and every step
strictly decreases the measure `rankC`, so every maximal execution is
finite and ends in that state — exactly one request served, no thread
deadlocked. -/
theorem permit_before_start_not_lost (s : CState) (h : ReachC s) :
    s.served ≤ 1
    ∧ (nextStates s = [] →
        (s.dpc = DPc.dDone ∧ s.served = 1 ∧ s.spc = SPc.waiting
          ∧ s.requests = 0))
    ∧ rankDecreasesAt s = true := by
  have hmem : s ∈ reachC := reachC_complete s h
  have hkey : ∀ t ∈ reachC, t.served ≤ 1
      ∧ (nextStates t = [] →
          (t.dpc = DPc.dDone ∧ t.served = 1 ∧ t.spc = SPc.waiting
            ∧ t.requests = 0))
      ∧ rankDecreasesAt t = true := by decide
  exact hkey s hmem

/-- Witness for C3: the theorem applied at the scenario's initial
state. -/
theorem permit_before_start_not_lost_witness :
    initC.served ≤ 1
    ∧ (nextStates initC = [] →
        (initC.dpc = DPc.dDone ∧ initC.served = 1 ∧ initC.spc = SPc.waiting
          ∧ initC.requests = 0))
    ∧ rankDecreasesAt initC = true :=
  permit_before_start_not_lost initC ReachC.refl

/-! ## Functional claims about `TestService` and the wrapper -/

/-- **C4.** For every request message whose `string_value` field equals
`"x"`, `TestService.optional_message` returns a message of the same type
whose `string_value` equals `"+x"`: the handler prepends `"+"` to the
supplied value. -/
theorem optional_message_prepends_plus (request : OptionalMessage)
    (h : request.string_value = some "x") :
    (optional_message request).string_value = some "+x" := by
  cases request with
  | mk v =>
      cases v with
      | none => cases h
      | some s =>
          cases h
          decide

/-- Witness for C4: the theorem applied at the concrete request
`{string_value: "x"}`. -/
theorem optional_message_prepends_plus_witness :
    (optional_message ⟨some "x"⟩).string_value = some "+x" :=
  optional_message_prepends_plus ⟨some "x"⟩ rfl

/-- **C5.** For every request, invoking `TestService.raise_application_error`
produces an `ApplicationError` carrying exactly the message
`"This is an application error"` and the symbolic error name
`"ERROR_NAME"`, and these two exact values are what the client observes
through the spec-modelled error-propagation pipeline. -/
theorem raise_application_error_exact (self : TestService) (request : Unit) :
    raise_application_error self request
      = MethodOutcome.applicationError "This is an application error" "ERROR_NAME"
    ∧ clientOutcome (raise_application_error self request)
      = ClientOutcome.applicationError "This is an application error" "ERROR_NAME" :=
  ⟨rfl, rfl⟩

/-- **C6.** Wrapping a transport does not alter send semantics or error
propagation: for every argument list, the wrapper's `send_rpc` notifies
the server thread (`handle_request(1)`) and returns exactly the value, or
raises exactly the exception, that the wrapped transport's original
`send_rpc` produces for those arguments. -/
theorem wrapper_send_rpc_transparent {α ε β : Type}
    (st : TState) (t : Transport α ε β) (args : α) :
    ((wrapTransport st t).send_rpc args).2 = t.send_rpc args
    ∧ ((wrapTransport st t).send_rpc args).1.server_thread
        = handle_request st 1
    ∧ ((wrapTransport st t).send_rpc args).1.original_send_rpc
        = t.send_rpc :=
  ⟨rfl, rfl, rfl⟩

/-- **C7.** The two `TestService` instances of `DEFAULT_MAPPING`, registered
at different paths with different constructor arguments (`'uninitialized'`
by default at `/my/service`, factory argument `'initialized'` at
`/my/other_service`), return different results for `init_parameter`: each
returns a message whose `string_value` is that instance's
constructor-supplied message. -/
theorem init_parameter_distinguishes_instances :
    (DEFAULT_MAPPING.lookup "/my/service").map
        (fun f => init_parameter (f ()) ()) = some ⟨some "uninitialized"⟩
    ∧ (DEFAULT_MAPPING.lookup "/my/other_service").map
        (fun f => init_parameter (f ()) ()) = some ⟨some "initialized"⟩
    ∧ init_parameter (default_factory ()) ()
        ≠ init_parameter (new_factory "initialized" ()) () := by
  refine ⟨rfl, rfl, ?_⟩
  decide

/-- **C8.** Permit grants are cumulative and only the count is observable:
from any `ServerThread` state, `handle_request(1)` twice leaves the thread
in the same state — in particular the same `__requests` value — as
`handle_request(2)` once. -/
theorem handle_request_cumulative (s : TState) :
    handle_request (handle_request s 1) 1 = handle_request s 2 := by
  unfold handle_request
  cases hw : decide (s.spc = SPc.waiting) <;>
    simp_all [TState.mk.injEq] <;> omega

/-- **C9.** For every request, `TestService.nested_message` raises a
`NameError` (its body reads the undefined name `requset`) and never
returns normally; a client therefore never sees the `'+'`-prefixed echo,
only an unexpected-error outcome. -/
theorem nested_message_name_error (self : TestService)
    (request : NestedMessage) :
    nested_message self request = MethodOutcome.pyError "NameError"
    ∧ (∀ response : NestedMessage,
        nested_message self request ≠ MethodOutcome.ok response)
    ∧ clientOutcome (nested_message self request)
        = ClientOutcome.unexpectedError := by
  have hscope : ("requset" ∈ nested_message_scope) = False := by
    simp [nested_message_scope]
  refine ⟨?_, ?_, ?_⟩
  · unfold nested_message
    rw [if_neg (by simp [nested_message_scope])]
  · intro response
    unfold nested_message
    rw [if_neg (by simp [nested_message_scope])]
    intro hcontra
    cases hcontra
  · unfold nested_message
    rw [if_neg (by simp [nested_message_scope])]
    rfl

end WebappTestUtil
